import Mathlib

/-!
Shallow embedding of the lineage-prediction scripts
(`lineage_predictor_v1.py`, `lineage_predictor_v4.py`, `lineage_predictorV5.py`).

Modelling choices, uniform across the file:
* Genomic positions are `ℤ` (Python `int`), sample variant sets and marker
  sets are `Finset ℤ` (Python `set`), per-lineage score mappings are
  association lists `List (String × ℚ)` in insertion order (Python `dict`
  preserves insertion order).
* Python `float` percentages are modelled exactly as `ℚ`; a raised
  exception (`ZeroDivisionError`, `ValueError`, `IndexError`) is modelled
  as `none` of an `Option` result.
* VCF rows are modelled after the tab-split performed by the scripts: a
  data row is the `List String` of its tab-separated fields.  Reading and
  writing of intermediate files is modelled as the identity on the data
  (spec section 1 declares file I/O out of scope).
-/

/-- Lexicographic comparison of character lists by code point, the order
Python uses to compare `str` values in `sorted` and `max`. -/
def lexLe : List Char → List Char → Bool
  | [], _ => true
  | _ :: _, [] => false
  | a :: as, b :: bs =>
    if a.toNat < b.toNat then true
    else if b.toNat < a.toNat then false
    else lexLe as bs

/-- String comparison as Python compares `str` values (by code points). -/
def strLe (a b : String) : Bool := lexLe a.data b.data

/-- Insert a string into a list that is sorted by `strLe`, keeping it sorted. -/
def insertSorted (x : String) : List String → List String
  | [] => [x]
  | y :: ys => if strLe x y then x :: y :: ys else y :: insertSorted x ys

/-- Sorting of a list of strings in Python code-point order; models the call
`sorted(matching_lineages)` in `lineage_predictor_v4.py` line 90. -/
def sortStrings : List String → List String
  | [] => []
  | x :: xs => insertSorted x (sortStrings xs)

/-- Predicate: a list of strings is sorted in Python code-point order. -/
def StrSorted (l : List String) : Prop := l.Pairwise (fun a b => strLe a b = true)

/-- Split a character list at every occurrence of a separator character,
with Python `str.split(sep)` semantics: the empty input yields `[[]]`, and
adjacent separators yield empty groups. -/
def splitCh (sep : Char) : List Char → List (List Char)
  | [] => [[]]
  | c :: cs =>
    if c = sep then [] :: splitCh sep cs
    else
      match splitCh sep cs with
      | [] => [[c]]
      | g :: gs => (c :: g) :: gs

/-- Python `s.split(":")`, used on the FORMAT field and the per-sample
fields in `lineage_predictor_v4.py` lines 48 and 56. -/
def splitColon (s : String) : List String := (splitCh ':' s.data).map (fun cs => ⟨cs⟩)

/-- Auxiliary digit accumulator for `pyInt?`. -/
def digitsToNat? (acc : ℕ) : List Char → Option ℕ
  | [] => some acc
  | c :: rest => if c.isDigit then digitsToNat? (acc * 10 + (c.toNat - 48)) rest else none

/-- Python `int(s)` on a position string: an optional sign followed by at
least one decimal digit (the whitespace-trimming and underscore-grouping
forms accepted by Python do not occur in the inputs modelled here).
`none` models a raised `ValueError`. -/
def pyInt? (s : String) : Option ℤ :=
  match s.data with
  | [] => none
  | '-' :: cs => if cs = [] then none else (digitsToNat? 0 cs).map (fun n => -(n : ℤ))
  | '+' :: cs => if cs = [] then none else (digitsToNat? 0 cs).map (fun n => (n : ℤ))
  | cs => (digitsToNat? 0 cs).map (fun n => (n : ℤ))

/-- Per-lineage match percentage of `lineage_predictor_v4.py` lines 69-75:
score 0 when the marker set is empty (the guard at line 70), otherwise
`100 * |M ∩ S| / |M|`. -/
def scoreFn (S M : Finset ℤ) : ℚ :=
  if M.card = 0 then 0
  else ((M ∩ S).card : ℚ) / (M.card : ℚ) * 100

/-- Joint-mode scorer (`lineage_predictor_v4.py` lines 67-75): one entry
per catalog lineage, in catalog order. -/
def scoreV4 (S : Finset ℤ) (C : List (String × Finset ℤ)) : List (String × ℚ) :=
  C.map (fun p => (p.1, scoreFn S p.2))

/-- Single-sample scorer (`lineage_predictor_v1.py` lines 55-59, identical
in `lineage_predictorV5.py` lines 62-67): the division
`matching_count / len(snp_set)` is unguarded, so an empty marker set
raises `ZeroDivisionError`, modelled as `none`. -/
def scoreV1 (S : Finset ℤ) : List (String × Finset ℤ) → Option (List (String × ℚ))
  | [] => some []
  | (L, M) :: rest =>
    if M.card = 0 then none
    else
      match scoreV1 S rest with
      | none => none
      | some m => some ((L, ((M ∩ S).card : ℚ) / (M.card : ℚ) * 100) :: m)

/-- Threshold for the joint-mode candidate test, `lineage_predictor_v4.py`
line 79 (`threshold = 0.0`). -/
def threshold : ℚ := 0

/-- Candidate lineages of `lineage_predictor_v4.py` lines 80-83: every
lineage whose score is strictly above the threshold, in mapping order. -/
def candidates (probs : List (String × ℚ)) : List String :=
  (probs.filter (fun p => threshold < p.2)).map Prod.fst

/-- Joint-mode classifier, `lineage_predictor_v4.py` lines 79-90, as a
function of the per-lineage score mapping it inspects (the code reads the
scores back out of their formatted percentage strings). -/
def classifyJoint (probs : List (String × ℚ)) : String :=
  match candidates probs with
  | [] => "unknown_lineage"
  | [l] => l
  | l1 :: l2 :: rest =>
    "mixed isolate: " ++ String.intercalate ", " (sortStrings (l1 :: l2 :: rest))

/-- Python `max` over a nonempty sequence of values: fold keeping the
current maximum, replacing it only on strict increase. -/
def pyMax (x : ℚ) : List ℚ → ℚ
  | [] => x
  | v :: vs => pyMax (if x < v then v else x) vs

/-- Python `max(mapping, key=mapping.get)` over a nonempty association
list: returns the first entry whose value is maximal. -/
def pyArgmax (p : String × ℚ) : List (String × ℚ) → String × ℚ
  | [] => p
  | q :: qs => pyArgmax (if p.2 < q.2 then q else p) qs

/-- Best-match classifier of `lineage_predictorV5.py` lines 70-74, as a
function of the per-lineage score mapping; `none` models the `ValueError`
Python `max` raises on an empty mapping. -/
def classifyBestV5 (probs : List (String × ℚ)) : Option String :=
  match probs with
  | [] => none
  | p :: ps =>
    if pyMax p.2 (ps.map Prod.snd) = 0 then some "unknown lineage"
    else some (pyArgmax p ps).1

/-- Best-match classifier of `lineage_predictor_v1.py` lines 61-65, as a
function of the score mapping parsed back from the formatted percentage
strings; it differs from the V5 variant only in the zero-maximum label. -/
def classifyBestV1 (probs : List (String × ℚ)) : Option String :=
  match probs with
  | [] => none
  | p :: ps =>
    if pyMax p.2 (ps.map Prod.snd) = 0 then some "unknown_lineage"
    else some (pyArgmax p ps).1

/-- Index of the `"GT"` sub-field in a colon-split FORMAT list: Python
`list.index` (first occurrence), with the `ValueError` fallback to 0 of
`lineage_predictor_v4.py` lines 49-52. -/
def gtIndexAux (target : String) : List String → Option ℕ
  | [] => none
  | s :: rest => if s = target then some 0 else (gtIndexAux target rest).map (· + 1)

/-- GT sub-field index for a FORMAT field, `lineage_predictor_v4.py`
lines 48-52: first index of `"GT"` in the colon-split FORMAT, else 0. -/
def gtIndex (fmt : String) : ℕ := (gtIndexAux "GT" (splitColon fmt)).getD 0

/-- Genotype test for one sample field, `lineage_predictor_v4.py`
lines 56-63: `none` when the GT index exceeds the colon-split sample field
(the `continue` at line 58), otherwise whether the genotype token is
neither `"0"` nor `"."`. -/
def gainsVariant (gi : ℕ) (fld : String) : Option Bool :=
  match (splitColon fld).get? gi with
  | none => none
  | some g => some (g != "0" && g != ".")

/-- Genotype test of a sample field against a FORMAT field. -/
def sampleGain (fmt fld : String) : Option Bool := gainsVariant (gtIndex fmt) fld

/-- Add a position to the named sample's variant set in the accumulator
(Python `sample_snps[sample].add(pos)`). -/
def addPos (m : List (String × Finset ℤ)) (name : String) (pos : ℤ) :
    List (String × Finset ℤ) :=
  m.map (fun p => if p.1 = name then (p.1, insert pos p.2) else p)

/-- Per-sample loop of one data row, `lineage_predictor_v4.py` lines 55-63:
sample `k` reads field `start + k`; a missing field is an uncaught
`IndexError` (`none`). -/
def applyRow (pos : ℤ) (gi : ℕ) (fields : List String) :
    ℕ → List String → List (String × Finset ℤ) → Option (List (String × Finset ℤ))
  | _, [], acc => some acc
  | start, s :: rest, acc =>
    match fields.get? start with
    | none => none
    | some fld =>
      let acc2 :=
        match gainsVariant gi fld with
        | none => acc
        | some true => addPos acc s pos
        | some false => acc
      applyRow pos gi fields (start + 1) rest acc2

/-- One data row of joint-mode extraction, `lineage_predictor_v4.py`
lines 40-63: a position field that fails `int` parsing skips the row
(lines 41-45); missing field 1 or field 8 is an uncaught `IndexError`. -/
def processRow (samples : List String) (acc : List (String × Finset ℤ))
    (fields : List String) : Option (List (String × Finset ℤ)) :=
  match fields.get? 1 with
  | none => none
  | some posStr =>
    match pyInt? posStr with
    | none => some acc
    | some pos =>
      match fields.get? 8 with
      | none => none
      | some fmt => applyRow pos (gtIndex fmt) fields 9 samples acc

/-- Deduplication keeping first occurrences, the key order of the Python
dict comprehension at `lineage_predictor_v4.py` line 33. -/
def dedupFirstAux (seen : List String) : List String → List String
  | [] => []
  | x :: xs =>
    if x ∈ seen then dedupFirstAux seen xs else x :: dedupFirstAux (x :: seen) xs

/-- Initial per-sample variant-set accumulator (`lineage_predictor_v4.py`
line 33): one empty set per distinct sample name. -/
def initSamples (names : List String) : List (String × Finset ℤ) :=
  (dedupFirstAux [] names).map (fun s => (s, (∅ : Finset ℤ)))

/-- Joint-mode variant extraction, `lineage_predictor_v4.py` lines 30-63,
over the tab-split data rows of the file; `none` models an exception
escaping `process_joint_vcf` (caught by `main`, which then skips the
file). -/
def extractJoint (samples : List String) (rows : List (List String)) :
    Option (List (String × Finset ℤ)) :=
  rows.foldlM (processRow samples) (initSamples samples)

/-- Single-sample conversion of all collected position strings, failing as a
whole if any of them fails (the `set(map(int, sample_snps))` inside the
`try`/`except ValueError` of `lineage_predictor_v1.py` lines 49-53). -/
def pyIntList? : List String → Option (List ℤ)
  | [] => some []
  | s :: rest =>
    match pyInt? s with
    | none => none
    | some n =>
      match pyIntList? rest with
      | none => none
      | some ns => some (n :: ns)

/-- Single-sample variant extraction: `extract_snp_positions` plus
`str_conv` plus the `int` conversion of `lineage_predictor_v1.py`
lines 6-53 (identically `lineage_predictorV5.py` lines 7-60).  Field 1 of
every row with at least two fields is collected; an empty collection or
any position failing `int` parsing makes the whole file's extraction fail
(`none`).  The round trip through the intermediate `_snp.txt` file is
modelled as the identity on the position strings. -/
def extractSingle (rows : List (List String)) : Option (Finset ℤ) :=
  let positions := rows.filterMap (fun r => r.get? 1)
  if positions = [] then none
  else
    match pyIntList? positions with
    | none => none
    | some ns => some ns.toFinset

/-- Batch accumulation of `lineage_predictor_v1.py` lines 101-106: per-file
results that are `None` or empty are skipped, the rest are appended. -/
def collectV1 {α : Type} (results : List (Option α)) : List α :=
  results.filterMap id

/-- Report emission of `lineage_predictor_v1.py` lines 107-111: a combined
file is written only when at least one record was collected; `none` means
no file is emitted at all. -/
def emitV1 {α : Type} (records : List α) : Option (List α) :=
  match records with
  | [] => none
  | r :: rs => some (r :: rs)

/-- Batch accumulation of `lineage_predictor_v4.py` lines 140-148: a file
whose processing raised (`none`) is skipped, otherwise its records are
appended. -/
def collectV4 {α : Type} (results : List (Option (List α))) : List α :=
  (results.filterMap id).flatten

/-- Report emission of `lineage_predictor_v4.py` lines 150-161: with no
records only the console message `"No results to save."` is printed and no
combined file is written (`none`). -/
def emitV4 {α : Type} (records : List α) : Option (List α) :=
  match records with
  | [] => none
  | r :: rs => some (r :: rs)

/-- Percentage formatting `f"{p:.2f}%"` for an exact rational score:
two decimal digits (rounding half-up; Python's float formatting rounds
half-even, indistinguishable at the exact values that occur here). -/
def formatPct (q : ℚ) : String :=
  let c : ℤ := Int.fdiv (q.num * 200 + (q.den : ℤ)) (2 * (q.den : ℤ))
  let frac : ℤ := c % 100
  toString (c / 100) ++ "." ++ (if frac < 10 then "0" ++ toString frac else toString frac)
    ++ "%"

/-- Hard-coded reference catalog of `lineage_predictor_v1.py` lines 82-100, in source order. -/
def lineage_references_v1 : List (String × Finset ℤ) := [
  ("lineage1", {615938, 646531, 4398732, 272678, 3830566, 4081987, 3233605, 244550, 4081996, 1560912, 812502, 3876953, 344288, 811492, 3647591, 2508395, 763886, 495473, 2897528, 1119739, 4022652}),
  ("lineage2", {1834177, 4243460, 811753, 518987, 282892, 4236237, 4308395, 2298194, 497491, 4290135, 4050811, 4158493, 4254431}),
  ("lineage3", {2840999, 633562, 3582694, 24007}),
  ("lineage4", {1170404, 1341624, 3381641, 3482432}),
  ("lineage5", {1911301, 352646, 1505806, 2304017, 4339610, 1097633, 2744225, 3840932, 801959, 3882025, 1216822, 4399422, 4387392, 344258, 3603523, 2485956, 2516804, 910282, 4086604, 1648089, 9566, 2463455, 1648224, 1145442, 1578212, 1555432, 1256176, 1649265, 1799921, 1352566}),
  ("lineage6", {1372002, 3862148, 3213255, 4086697, 4236891, 334445, 2427828, 507989, 2847737, 1069146, 1867707, 3155164, 1886077}),
  ("lineage7", {3009027, 1125894, 1365895, 349081, 1561245, 4070302, 22303, 2305184, 1867937, 1513250, 4113054, 2303524, 3667883, 8876, 3603631, 2406193, 2086202, 2871227, 1297084, 4308411, 2414272, 2759363, 2833478, 3324231, 3473482, 2385615, 4262608, 2380244, 3182040, 3860696, 2913373, 1799774, 3225566, 1463776, 3635935, 2035938, 2414434, 497126, 3360233, 1137518, 1237743, 73456, 2383599, 2999030, 811642, 3470461, 2842238}),
  ("lineage8", {2022784, 1704707, 1665285, 1914246, 1941256, 4410891, 3645324, 4074512, 343314, 742270, 4227348, 3786517, 1391766, 4034711, 1505182, 3830815, 3840800, 2862497, 4210592, 4254755, 1594788, 508454, 3569319, 459561, 2415402, 1505455, 2940079, 17333, 1922231, 23098, 1446846, 2295359, 2466760, 765772, 2086736, 442577, 2939600, 3469397, 2450263, 3333720, 3151706, 1391967, 1805152, 3074400, 2440802, 2306915, 1858921, 595051, 1553399, 1227518}),
  ("lineage9", {3094577, 3225892, 3370805, 3414553}),
  ("bovis", {4038403, 354054, 652935, 2716806, 45193, 3371401, 3876953, 1647117, 2444952, 2643109, 4034981, 62768, 3022532, 1800521, 1462220, 3623372, 2782927, 437465, 2844761, 648667, 3723227, 4229470, 602207, 1137632, 3199071, 2767842, 3323617, 1344741, 1671658, 1813494, 3667193, 905082, 1492605}),
  ("caprae", {1673766, 422182, 649585, 2292409, 4398204}),
  ("dassie", {2271988, 557574, 1218256, 1226531, 1390170, 1554550, 1663500, 1751197, 2825199, 2846051, 2862458, 2871821, 2909119, 3062450, 3155107, 3392478, 3635392, 4085665, 4242313}),
  ("microtii", {3688579, 5671, 2874797, 1364877, 247252, 1004570}),
  ("mungi", {4268672, 2924039, 284041, 2022409, 24974, 437264, 3625360, 1256212, 270869, 64790, 2747554, 2999330, 2018219, 2437426, 2686388, 333878, 1216954, 570683, 4409917, 3180094, 73027, 1567814, 649036, 3326925, 45904, 4224851, 2937949, 2780127, 352481, 4274530, 3829350, 2993651, 3372917, 2427519}),
  ("orygis", {247300, 3337480, 1236745, 53899, 44812, 3061003, 1555342, 3598221, 3667352, 268953, 3039261, 748320, 3148454, 1344807, 3058989, 4039853, 2486576, 2298548, 3562936, 2296634, 2309820, 1579197, 3147196, 3155260, 4067010, 3241414, 3337675, 1449038, 459600, 587601, 1490258, 498771, 2301395, 3770449, 1918811, 1125468, 6109, 2429276, 8930, 1216738, 500710, 1652839, 634348, 1810542, 4069621, 1383800, 1834363, 4409725}),
  ("pinepedii", {3337219, 1036936, 2301448, 736140, 2352292, 4161188, 458156, 1937070, 1648564, 2301749, 28344, 1650257, 1650258, 1924695, 3090780, 3145957, 1391466, 2942959, 918007, 348280, 458617, 2908666, 1577723, 3469951}),
  ("surricate", {2914435, 1883911, 3343629, 3396110, 4049678, 3060380, 21664, 2428451, 4396201, 1831339, 2762930, 1366453, 2410438, 344135, 3233351, 2716491, 765004, 495566, 741841, 3233747, 2746981, 2872678, 1650665, 2069610, 763375, 3603697, 286579, 351101})
]

/-- Hard-coded reference catalog of `lineage_predictor_v4.py` lines 119-137, in source order. -/
def lineage_references_v4 : List (String × Finset ℤ) := [
  ("lineage1", {615938, 646531, 4398732, 272678, 3830566, 4081987, 3233605, 244550, 4081996, 1560912, 812502, 3876953, 344288, 811492, 3647591, 2508395, 763886, 495473, 2897528, 1119739, 4022652}),
  ("lineage2", {1834177, 4243460, 811753, 518987, 282892, 4236237, 4308395, 2298194, 497491, 4290135, 4050811, 4158493, 4254431}),
  ("lineage3", {2840999, 633562, 3582694, 24007}),
  ("lineage4", {1341624, 3381641, 3482432, 1170404}),
  ("lineage5", {1911301, 352646, 1505806, 2304017, 4339610, 1097633, 2744225, 3840932, 801959, 3882025, 1216822, 4399422, 4387392, 344258, 3603523, 2485956, 2516804, 910282, 4086604, 1648089, 9566, 2463455, 1648224, 1145442, 1578212, 1555432, 1256176, 1649265, 1799921, 1352566}),
  ("lineage6", {1372002, 3862148, 3213255, 4086697, 4236891, 334445, 2427828, 507989, 2847737, 1069146, 1867707, 3155164, 1886077}),
  ("lineage7", {3009027, 1125894, 1365895, 349081, 1561245, 4070302, 22303, 2305184, 1867937, 1513250, 4113054, 2303524, 3667883, 8876, 3603631, 2406193, 2086202, 2871227, 1297084, 4308411, 2414272, 2759363, 2833478, 3324231, 3473482, 2385615, 4262608, 2380244, 3182040, 3860696, 2913373, 1799774, 3225566, 1463776, 3635935, 2035938, 2414434, 497126, 3360233, 1137518, 1237743, 73456, 2383599, 2999030, 811642, 3470461, 2842238}),
  ("lineage8", {2022784, 1704707, 1665285, 1914246, 1941256, 4410891, 3645324, 4074512, 343314, 742270, 4227348, 3786517, 1391766, 4034711, 1505182, 3830815, 3840800, 2862497, 4210592, 4254755, 1594788, 508454, 3569319, 459561, 2415402, 1505455, 2940079, 17333, 1922231, 23098, 1446846, 2295359, 2466760, 765772, 2086736, 442577, 2939600, 3469397, 2450263, 3333720, 3151706, 1391967, 1805152, 3074400, 2440802, 2306915, 1858921, 595051, 1553399, 1227518}),
  ("lineage9", {3094577, 3225892, 3370805, 3414553}),
  ("bovis", {4038403, 354054, 652935, 2716806, 45193, 3371401, 3876953, 1647117, 2444952, 2643109, 4034981, 62768, 3022532, 1800521, 1462220, 3623372, 2782927, 437465, 2844761, 648667, 3723227, 4229470, 602207, 1137632, 3199071, 2767842, 3323617, 1344741, 1671658, 1813494, 3667193, 905082, 1492605}),
  ("caprae", {1673766, 422182, 649585, 2292409, 4398204}),
  ("dassie", {557574, 4242313, 1663500, 2871821, 1751197, 4085665, 1226531, 3155107, 3062450, 2909119, 3635392, 1218256, 1390170, 3392478, 2846051, 2825199, 271988, 1554550, 2862458}),
  ("microtii", {3688579, 5671, 2874797, 1364877, 247252, 1004570}),
  ("mungi", {4268672, 2924039, 284041, 2022409, 24974, 437264, 3625360, 1256212, 270869, 64790, 2747554, 2999330, 2018219, 2437426, 2686388, 333878, 1216954, 570683, 4409917, 3180094, 73027, 1567814, 649036, 3326925, 45904, 4224851, 2937949, 2780127, 352481, 4274530, 3829350, 2993651, 3372917, 2427519}),
  ("orygis", {247300, 3337480, 1236745, 53899, 44812, 3061003, 1555342, 3598221, 3667352, 268953, 3039261, 748320, 3148454, 1344807, 3058989, 4039853, 2486576, 2298548, 3562936, 2296634, 2309820, 1579197, 3147196, 3155260, 4067010, 3241414, 3337675, 1449038, 459600, 587601, 1490258, 498771, 2301395, 3770449, 1918811, 1125468, 6109, 2429276, 8930, 1216738, 500710, 1652839, 634348, 1810542, 4069621, 1383800, 1834363, 4409725}),
  ("pinepedii", {3337219, 1036936, 2301448, 736140, 2352292, 4161188, 458156, 1937070, 1648564, 2301749, 28344, 1650257, 1650258, 1924695, 3090780, 3145957, 1391466, 2942959, 918007, 348280, 458617, 2908666, 1577723, 3469951}),
  ("surricate", {2914435, 1883911, 3343629, 3396110, 4049678, 3060380, 21664, 2428451, 4396201, 1831339, 2762930, 1366453, 2410438, 344135, 3233351, 2716491, 765004, 495566, 741841, 3233747, 2746981, 2872678, 1650665, 2069610, 763375, 3603697, 286579, 351101})
]

/-- Hard-coded reference catalog of `lineage_predictorV5.py` lines 105-137, in source order. -/
def lineage_references_v5 : List (String × Finset ℤ) := [
  ("lineage1", {615938, 646531, 4398732, 272678, 3830566, 4081987, 3233605, 244550, 4081996, 1560912, 812502, 3876953, 344288, 811492, 3647591, 2508395, 763886, 495473, 2897528, 1119739, 4022652}),
  ("l1_1", {2989683, 4404247}),
  ("l1_2", {4244420, 4049254, 2462700, 9260, 3561229, 1136017, 1553855}),
  ("l1_3", {2763624, 3470377, 4238120}),
  ("lineage2", {1834177, 4243460, 811753, 518987, 282892, 4236237, 4308395, 2298194, 497491, 4290135, 4050811, 4158493, 4254431}),
  ("l2_2_1", {3147511, 1565566, 2640807}),
  ("l2_2_2", {3147511, 1565566, 2640807}),
  ("lineage3", {2840999, 633562, 3582694, 24007}),
  ("l3_1_1", {2467098, 2744388, 3023684}),
  ("l3_1_2", {1914217, 3722702}),
  ("lineage4", {1170404, 1341624, 3381641, 3482432}),
  ("l4_1", {62657, 4340006, 2739174, 284623, 2020144}),
  ("l4_2", {3198496, 3469694, 4073918, 1568018, 2441970, 1872211, 3666905, 1466779, 4291449, 1670814}),
  ("l4_3", {2621058, 764995, 1452071, 1389738, 4038287, 3191027}),
  ("l4_4", {4238963}),
  ("l4_6", {54304, 18091}),
  ("l4_8", {1130526}),
  ("l4_9", {8978, 1940611, 4165205, 1882573}),
  ("lineage5", {1911301, 352646, 1505806, 2304017, 4339610, 1097633, 2744225, 3840932, 801959, 3882025, 1216822, 4399422, 4387392, 344258, 3603523, 2485956, 2516804, 910282, 4086604, 1648089, 9566, 2463455, 1648224, 1145442, 1578212, 1555432, 1256176, 1649265, 1799921, 1352566}),
  ("lineage6", {1372002, 3862148, 3213255, 4086697, 4236891, 334445, 2427828, 507989, 2847737, 1069146, 1867707, 3155164, 1886077}),
  ("lineage7", {3009027, 1125894, 1365895, 349081, 1561245, 4070302, 22303, 2305184, 1867937, 1513250, 4113054, 2303524, 3667883, 8876, 3603631, 2406193, 2086202, 2871227, 1297084, 4308411, 2414272, 2759363, 2833478, 3324231, 3473482, 2385615, 4262608, 2380244, 3182040, 3860696, 2913373, 1799774, 3225566, 1463776, 3635935, 2035938, 2414434, 497126, 3360233, 1137518, 1237743, 73456, 2383599, 2999030, 811642, 3470461, 2842238}),
  ("lineage8", {2022784, 1704707, 1665285, 1914246, 1941256, 4410891, 3645324, 4074512, 343314, 742270, 4227348, 3786517, 1391766, 4034711, 1505182, 3830815, 3840800, 2862497, 4210592, 4254755, 1594788, 508454, 3569319, 459561, 2415402, 1505455, 2940079, 17333, 1922231, 23098, 1446846, 2295359, 2466760, 765772, 2086736, 442577, 2939600, 3469397, 2450263, 3333720, 3151706, 1391967, 1805152, 3074400, 2440802, 2306915, 1858921, 595051, 1553399, 1227518}),
  ("lineage9", {3094577, 3225892, 3370805, 3414553}),
  ("bovis", {4038403, 354054, 652935, 2716806, 45193, 3371401, 3876953, 1647117, 2444952, 2643109, 4034981, 62768, 3022532, 1800521, 1462220, 3623372, 2782927, 437465, 2844761, 648667, 3723227, 4229470, 602207, 1137632, 3199071, 2767842, 3323617, 1344741, 1671658, 1813494, 3667193, 905082, 1492605}),
  ("caprae", {1673766, 422182, 649585, 2292409, 4398204}),
  ("dassie", {2271988, 557574, 1218256, 1226531, 1390170, 1554550, 1663500, 1751197, 2825199, 2846051, 2862458, 2871821, 2909119, 3062450, 3155107, 3392478, 3635392, 4085665, 4242313}),
  ("microtii", {3688579, 5671, 2874797, 1364877, 247252, 1004570}),
  ("mungi", {4268672, 2924039, 284041, 2022409, 24974, 437264, 3625360, 1256212, 270869, 64790, 2747554, 2999330, 2018219, 2437426, 2686388, 333878, 1216954, 570683, 4409917, 3180094, 73027, 1567814, 649036, 3326925, 45904, 4224851, 2937949, 2780127, 352481, 4274530, 3829350, 2993651, 3372917, 2427519}),
  ("orygis", {247300, 3337480, 1236745, 53899, 44812, 3061003, 1555342, 3598221, 3667352, 268953, 3039261, 748320, 3148454, 1344807, 3058989, 4039853, 2486576, 2298548, 3562936, 2296634, 2309820, 1579197, 3147196, 3155260, 4067010, 3241414, 3337675, 1449038, 459600, 587601, 1490258, 498771, 2301395, 3770449, 1918811, 1125468, 6109, 2429276, 8930, 1216738, 500710, 1652839, 634348, 1810542, 4069621, 1383800, 1834363, 4409725}),
  ("pinepedii", {3337219, 1036936, 2301448, 736140, 2352292, 4161188, 458156, 1937070, 1648564, 2301749, 28344, 1650257, 1650258, 1924695, 3090780, 3145957, 1391466, 2942959, 918007, 348280, 458617, 2908666, 1577723, 3469951}),
  ("surricate", {2914435, 1883911, 3343629, 3396110, 4049678, 3060380, 21664, 2428451, 4396201, 1831339, 2762930, 1366453, 2410438, 344135, 3233351, 2716491, 765004, 495566, 741841, 3233747, 2746981, 2872678, 1650665, 2069610, 763375, 3603697, 286579, 351101})
]

/-- Tab-split data rows of a single-sample file whose positions are exactly
the lineage3 marker set. -/
def rows6 : List (List String) :=
  [["Chromosome", "2840999"], ["Chromosome", "633562"],
   ["Chromosome", "3582694"], ["Chromosome", "24007"]]

/-- The lineage3 marker set as a sample variant set. -/
def sample6 : Finset ℤ := {2840999, 633562, 3582694, 24007}

/-- Expected V5 score mapping for a sample equal to the lineage3 marker set:
100 for lineage3, 0 for every other catalog lineage. -/
def scores6 : List (String × ℚ) := [
  ("lineage1", 0), ("l1_1", 0), ("l1_2", 0), ("l1_3", 0),
  ("lineage2", 0), ("l2_2_1", 0), ("l2_2_2", 0),
  ("lineage3", 100), ("l3_1_1", 0), ("l3_1_2", 0),
  ("lineage4", 0), ("l4_1", 0), ("l4_2", 0), ("l4_3", 0), ("l4_4", 0),
  ("l4_6", 0), ("l4_8", 0), ("l4_9", 0),
  ("lineage5", 0), ("lineage6", 0), ("lineage7", 0), ("lineage8", 0),
  ("lineage9", 0), ("bovis", 0), ("caprae", 0), ("dassie", 0),
  ("microtii", 0), ("mungi", 0), ("orygis", 0), ("pinepedii", 0),
  ("surricate", 0)]

/-! Helper lemmas about the Python ordering of strings. -/

theorem lexLe_refl : ∀ a : List Char, lexLe a a = true
  | [] => rfl
  | c :: cs => by
    simp only [lexLe]
    rw [if_neg (by omega), if_neg (by omega)]
    exact lexLe_refl cs

theorem lexLe_total : ∀ a b : List Char, lexLe a b = true ∨ lexLe b a = true
  | [], _ => Or.inl rfl
  | _ :: _, [] => Or.inr rfl
  | a :: as, b :: bs => by
    simp only [lexLe]
    rcases Nat.lt_trichotomy a.toNat b.toNat with h | h | h
    · left; rw [if_pos h]
    · rw [if_neg (by omega), if_neg (by omega), if_neg (by omega), if_neg (by omega)]
      exact lexLe_total as bs
    · right; rw [if_pos h]

theorem lexLe_trans : ∀ a b c : List Char,
    lexLe a b = true → lexLe b c = true → lexLe a c = true
  | [], _, _, _, _ => rfl
  | _ :: _, [], _, h1, _ => by simp [lexLe] at h1
  | _ :: _, _ :: _, [], _, h2 => by simp [lexLe] at h2
  | a :: as, b :: bs, c :: cs, h1, h2 => by
    simp only [lexLe] at h1 h2 ⊢
    rcases Nat.lt_trichotomy a.toNat b.toNat with hab | hab | hab
    · rcases Nat.lt_trichotomy b.toNat c.toNat with hbc | hbc | hbc
      · rw [if_pos (by omega)]
      · rw [if_pos (by omega)]
      · rw [if_neg (by omega), if_pos (by omega)] at h2; exact absurd h2 (by simp)
    · rw [if_neg (by omega), if_neg (by omega)] at h1
      rcases Nat.lt_trichotomy b.toNat c.toNat with hbc | hbc | hbc
      · rw [if_pos (by omega)]
      · rw [if_neg (by omega), if_neg (by omega)] at h2 ⊢
        exact lexLe_trans as bs cs h1 h2
      · rw [if_neg (by omega), if_pos (by omega)] at h2; exact absurd h2 (by simp)
    · rw [if_neg (by omega), if_pos (by omega)] at h1; exact absurd h1 (by simp)

theorem strLe_refl (a : String) : strLe a a = true := lexLe_refl a.data

theorem strLe_total (a b : String) : strLe a b = true ∨ strLe b a = true :=
  lexLe_total a.data b.data

theorem strLe_trans {a b c : String} (h1 : strLe a b = true) (h2 : strLe b c = true) :
    strLe a c = true := lexLe_trans a.data b.data c.data h1 h2

/-! Helper lemmas: insertion sort is a sorted permutation. -/

theorem insertSorted_perm (x : String) :
    ∀ l : List String, (insertSorted x l).Perm (x :: l)
  | [] => List.Perm.refl _
  | y :: ys => by
    simp only [insertSorted]
    split_ifs with h
    · exact List.Perm.refl _
    · exact ((insertSorted_perm x ys).cons y).trans (List.Perm.swap x y ys)

theorem insertSorted_sorted (x : String) :
    ∀ {l : List String}, StrSorted l → StrSorted (insertSorted x l) := by
  intro l
  induction l with
  | nil => intro _; simp [insertSorted, StrSorted]
  | cons y ys ih =>
    intro h
    rw [StrSorted, List.pairwise_cons] at h
    obtain ⟨hy, hys⟩ := h
    simp only [insertSorted]
    split_ifs with hxy
    · rw [StrSorted, List.pairwise_cons]
      refine ⟨?_, List.Pairwise.cons hy hys⟩
      intro z hz
      rcases List.mem_cons.mp hz with rfl | hz2
      · exact hxy
      · exact strLe_trans hxy (hy z hz2)
    · rw [StrSorted, List.pairwise_cons]
      constructor
      · intro z hz
        rw [(insertSorted_perm x ys).mem_iff, List.mem_cons] at hz
        rcases hz with hz1 | hz2
        · rw [hz1]
          rcases strLe_total x y with h1 | h1
          · exact absurd h1 hxy
          · exact h1
        · exact hy z hz2
      · exact ih hys

theorem sortStrings_perm : ∀ l : List String, (sortStrings l).Perm l
  | [] => List.Perm.refl _
  | x :: xs =>
    (insertSorted_perm x (sortStrings xs)).trans ((sortStrings_perm xs).cons x)

theorem sortStrings_sorted : ∀ l : List String, StrSorted (sortStrings l)
  | [] => List.Pairwise.nil
  | x :: xs => insertSorted_sorted x (sortStrings_sorted xs)

/-! Helper lemmas about the Python max folds. -/

theorem pyMax_mem (x : ℚ) : ∀ l : List ℚ, pyMax x l = x ∨ pyMax x l ∈ l
  | [] => Or.inl rfl
  | v :: vs => by
    simp only [pyMax]
    rcases pyMax_mem (if x < v then v else x) vs with h | h
    · rw [h]; split_ifs with hv
      · right; exact List.mem_cons_self v vs
      · left; rfl
    · right; exact List.mem_cons_of_mem v h

theorem le_pyMax_init (x : ℚ) : ∀ l : List ℚ, x ≤ pyMax x l
  | [] => le_refl x
  | v :: vs => by
    simp only [pyMax]
    have h := le_pyMax_init (if x < v then v else x) vs
    split_ifs at h ⊢ with hv
    · exact le_trans (le_of_lt hv) h
    · exact h

theorem le_pyMax_mem (x : ℚ) : ∀ l : List ℚ, ∀ y ∈ l, y ≤ pyMax x l
  | [] => by intro y hy; cases hy
  | v :: vs => by
    intro y hy
    simp only [pyMax]
    rcases List.mem_cons.mp hy with rfl | hy2
    · refine le_trans ?_ (le_pyMax_init _ vs)
      split_ifs with hv
      · exact le_refl y
      · exact le_of_not_lt hv
    · exact le_pyMax_mem _ vs y hy2

theorem pyArgmax_mem (p : String × ℚ) :
    ∀ l : List (String × ℚ), pyArgmax p l = p ∨ pyArgmax p l ∈ l
  | [] => Or.inl rfl
  | q :: qs => by
    simp only [pyArgmax]
    rcases pyArgmax_mem (if p.2 < q.2 then q else p) qs with h | h
    · rw [h]; split_ifs with hv
      · right; exact List.mem_cons_self q qs
      · left; rfl
    · right; exact List.mem_cons_of_mem q h

theorem le_pyArgmax_init (p : String × ℚ) :
    ∀ l : List (String × ℚ), p.2 ≤ (pyArgmax p l).2
  | [] => le_refl _
  | q :: qs => by
    simp only [pyArgmax]
    have h := le_pyArgmax_init (if p.2 < q.2 then q else p) qs
    split_ifs at h ⊢ with hv
    · exact le_trans (le_of_lt hv) h
    · exact h

theorem le_pyArgmax_mem (p : String × ℚ) :
    ∀ l : List (String × ℚ), ∀ q ∈ l, q.2 ≤ (pyArgmax p l).2
  | [] => by intro q hq; cases hq
  | v :: vs => by
    intro q hq
    simp only [pyArgmax]
    rcases List.mem_cons.mp hq with rfl | hq2
    · refine le_trans ?_ (le_pyArgmax_init _ vs)
      split_ifs with hv
      · exact le_refl _
      · exact le_of_not_lt hv
    · exact le_pyArgmax_mem _ vs q hq2

/-! Helper lemmas about the scorers. -/

theorem scoreFn_nonneg (S M : Finset ℤ) : 0 ≤ scoreFn S M := by
  unfold scoreFn
  split_ifs with h0
  · exact le_refl 0
  · positivity

theorem scoreFn_le_hundred (S M : Finset ℤ) : scoreFn S M ≤ 100 := by
  unfold scoreFn
  split_ifs with h0
  · norm_num
  · have hb : (0 : ℚ) < M.card := by exact_mod_cast Nat.pos_of_ne_zero h0
    have hle : ((M ∩ S).card : ℚ) ≤ (M.card : ℚ) := by
      exact_mod_cast Finset.card_le_card Finset.inter_subset_left
    calc ((M ∩ S).card : ℚ) / (M.card : ℚ) * 100 ≤ 1 * 100 :=
          mul_le_mul_of_nonneg_right ((div_le_one hb).mpr hle) (by norm_num)
      _ = 100 := one_mul 100

theorem scoreFn_empty_sample (M : Finset ℤ) : scoreFn ∅ M = 0 := by
  unfold scoreFn
  split_ifs with h0
  · rfl
  · simp [Finset.inter_empty]

theorem scoreFn_mono {S T : Finset ℤ} (M : Finset ℤ) (h : S ⊆ T) :
    scoreFn S M ≤ scoreFn T M := by
  unfold scoreFn
  split_ifs with h0
  · exact le_refl 0
  · have hb : (0 : ℚ) < M.card := by exact_mod_cast Nat.pos_of_ne_zero h0
    have hcard : ((M ∩ S).card : ℚ) ≤ ((M ∩ T).card : ℚ) := by
      exact_mod_cast Finset.card_le_card (Finset.inter_subset_inter (Finset.Subset.refl M) h)
    exact mul_le_mul_of_nonneg_right
      ((div_le_div_iff_of_pos_right hb).mpr hcard) (by norm_num)

theorem scoreV1_cons_pos {S M : Finset ℤ} {L : String} {rest : List (String × Finset ℤ)}
    {m : List (String × ℚ)} (h0 : ¬ M.card = 0) (hrest : scoreV1 S rest = some m) :
    scoreV1 S ((L, M) :: rest)
      = some ((L, ((M ∩ S).card : ℚ) / (M.card : ℚ) * 100) :: m) := by
  simp only [scoreV1, if_neg h0, hrest]

theorem scoreV1_cons_zero {S M : Finset ℤ} {L : String} {rest : List (String × Finset ℤ)}
    {m : List (String × ℚ)} (h0 : ¬ M.card = 0) (hz : (M ∩ S).card = 0)
    (hrest : scoreV1 S rest = some m) :
    scoreV1 S ((L, M) :: rest) = some ((L, 0) :: m) := by
  rw [scoreV1_cons_pos h0 hrest, hz]
  norm_num

theorem scoreV1_cons_full {S M : Finset ℤ} {L : String} {rest : List (String × Finset ℤ)}
    {m : List (String × ℚ)} (h0 : ¬ M.card = 0) (hf : M ∩ S = M)
    (hrest : scoreV1 S rest = some m) :
    scoreV1 S ((L, M) :: rest) = some ((L, 100) :: m) := by
  have hb : ((M.card : ℚ)) ≠ 0 := Nat.cast_ne_zero.mpr h0
  rw [scoreV1_cons_pos h0 hrest, hf, div_self hb, one_mul]

theorem scoreV1_none_of_empty {S : Finset ℤ} :
    ∀ {C : List (String × Finset ℤ)} {L : String} {M : Finset ℤ},
      (L, M) ∈ C → M.card = 0 → scoreV1 S C = none := by
  intro C
  induction C with
  | nil => intro L M h _; cases h
  | cons p rest ih =>
    intro L M hmem h0
    obtain ⟨L2, M2⟩ := p
    rcases List.mem_cons.mp hmem with heq | h2
    · rw [Prod.mk.injEq] at heq
      obtain ⟨rfl, rfl⟩ := heq
      simp [scoreV1, h0]
    · by_cases hM2 : M2.card = 0
      · simp [scoreV1, hM2]
      · simp [scoreV1, hM2, ih h2 h0]

theorem scoreV1_some_spec {S : Finset ℤ} :
    ∀ {C : List (String × Finset ℤ)} {m : List (String × ℚ)}, scoreV1 S C = some m →
      m.map Prod.fst = C.map Prod.fst ∧ ∀ p ∈ m, 0 ≤ p.2 ∧ p.2 ≤ 100 := by
  intro C
  induction C with
  | nil =>
    intro m h
    simp only [scoreV1, Option.some.injEq] at h
    subst h
    simp
  | cons p rest ih =>
    obtain ⟨L, M⟩ := p
    intro m h
    simp only [scoreV1] at h
    split_ifs at h with h0
    cases hrest : scoreV1 S rest with
    | none => rw [hrest] at h; cases h
    | some m2 =>
      rw [hrest] at h
      simp only [Option.some.injEq] at h
      subst h
      obtain ⟨hkeys, hvals⟩ := ih hrest
      refine ⟨by simp [hkeys], ?_⟩
      intro q hq
      rcases List.mem_cons.mp hq with hq1 | hq2
      · have hsc : scoreFn S M = ((M ∩ S).card : ℚ) / (M.card : ℚ) * 100 := by
          unfold scoreFn
          rw [if_neg h0]
        rw [hq1]
        constructor
        · rw [← hsc]; exact scoreFn_nonneg S M
        · rw [← hsc]; exact scoreFn_le_hundred S M
      · exact hvals q hq2

/-! Helper lemmas about extraction. -/

theorem processRow_skip {samples : List String} {acc : List (String × Finset ℤ)}
    {row : List String} {s : String} (h1 : row.get? 1 = some s) (h2 : pyInt? s = none) :
    processRow samples acc row = some acc := by
  simp only [processRow, h1, h2]

theorem gtIndexAux_mem {t : String} :
    ∀ {l : List String}, t ∈ l → ∃ j, gtIndexAux t l = some j ∧ l.get? j = some t := by
  intro l
  induction l with
  | nil => intro h; cases h
  | cons a rest ih =>
    intro h
    by_cases ha : a = t
    · exact ⟨0, by simp [gtIndexAux, ha], by simp [ha]⟩
    · rcases List.mem_cons.mp h with h1 | h2
      · exact absurd h1.symm ha
      · obtain ⟨j, hj1, hj2⟩ := ih h2
        exact ⟨j + 1, by simp [gtIndexAux, ha, hj1], by simpa using hj2⟩

theorem gtIndexAux_not_mem {t : String} :
    ∀ {l : List String}, t ∉ l → gtIndexAux t l = none := by
  intro l
  induction l with
  | nil => intro _; rfl
  | cons a rest ih =>
    intro h
    rw [List.mem_cons] at h
    push_neg at h
    have ha : ¬ a = t := fun hc => h.1 hc.symm
    simp [gtIndexAux, ha, ih h.2]

theorem pyIntList_none_of_mem :
    ∀ {l : List String} {s : String}, s ∈ l → pyInt? s = none → pyIntList? l = none := by
  intro l
  induction l with
  | nil => intro s hs; cases hs
  | cons b bs ih =>
    intro s hs hf
    rcases List.mem_cons.mp hs with h1 | h2
    · rw [h1] at hf
      simp [pyIntList?, hf]
    · cases hb : pyInt? b with
      | none => simp [pyIntList?, hb]
      | some v => simp [pyIntList?, hb, ih h2 hf]

theorem extractJoint_skip (samples : List String) (rows1 rows2 : List (List String))
    {row : List String} {s : String} (h1 : row.get? 1 = some s) (h2 : pyInt? s = none) :
    extractJoint samples (rows1 ++ row :: rows2) = extractJoint samples (rows1 ++ rows2) := by
  unfold extractJoint
  rw [List.foldlM_append, List.foldlM_append]
  cases h : List.foldlM (processRow samples) (initSamples samples) rows1 with
  | none => simp [h]
  | some acc => simp [h, List.foldlM_cons, processRow_skip h1 h2]

/-! Helper lemmas about the two hard-coded catalogs. -/

theorem lineage4_set_eq :
    ({1170404, 1341624, 3381641, 3482432} : Finset ℤ)
      = {1341624, 3381641, 3482432, 1170404} := by
  ext x
  simp [Finset.mem_insert]
  tauto

theorem catalogs_get?_eq {j : ℕ} (hj : j ≠ 11) :
    lineage_references_v1.get? j = lineage_references_v4.get? j := by
  by_cases h17 : j < 17
  · interval_cases j <;>
      first
        | rfl
        | (exact absurd rfl hj)
        | (simp only [lineage_references_v1, lineage_references_v4, List.get?]
           rw [lineage4_set_eq])
  · have l1 : lineage_references_v1.length = 17 := rfl
    have l4 : lineage_references_v4.length = 17 := rfl
    rw [List.get?_eq_none.mpr (by rw [l1]; omega), List.get?_eq_none.mpr (by rw [l4]; omega)]

/-! Claim theorems. -/

/-- C1: under the joint-mode threshold/mixed policy, an all-nonpositive score
mapping yields `"unknown_lineage"`; a single candidate above the threshold is
reported directly; two or more candidates yield the `"mixed isolate: "` label
with the candidates joined by `", "` in lexicographically sorted order. -/
theorem c1_joint_threshold_policy (probs : List (String × ℚ)) :
    ((∀ p ∈ probs, ¬ threshold < p.2) → classifyJoint probs = "unknown_lineage")
    ∧ (∀ L, candidates probs = [L] → classifyJoint probs = L)
    ∧ (∀ L1 L2 rest, candidates probs = L1 :: L2 :: rest →
        classifyJoint probs
            = "mixed isolate: " ++ String.intercalate ", " (sortStrings (L1 :: L2 :: rest))
          ∧ StrSorted (sortStrings (L1 :: L2 :: rest))
          ∧ (sortStrings (L1 :: L2 :: rest)).Perm (L1 :: L2 :: rest)) := by
  refine ⟨?_, ?_, ?_⟩
  · intro h
    have hfil : probs.filter (fun p => threshold < p.2) = [] := by
      rw [List.filter_eq_nil_iff]
      intro a ha
      simpa using h a ha
    have hc : candidates probs = [] := by
      rw [candidates, hfil]
      rfl
    simp [classifyJoint, hc]
  · intro L hL
    simp [classifyJoint, hL]
  · intro L1 L2 rest h
    exact ⟨by simp [classifyJoint, h], sortStrings_sorted _, sortStrings_perm _⟩

/-- Witness for C1 at the spec's example mapping
`{lineageA: 0, lineageB: 50, lineageC: 25}`. -/
theorem c1_joint_threshold_policy_witness :
    classifyJoint [("lineageA", 0), ("lineageB", 50), ("lineageC", 25)]
      = "mixed isolate: lineageB, lineageC" := by
  have h := (c1_joint_threshold_policy
      [("lineageA", 0), ("lineageB", 50), ("lineageC", 25)]).2.2
      "lineageB" "lineageC" [] (by decide)
  rw [h.1]
  decide

/-- C2 counterexample: the v1 best-match classifier labels an all-zero score
mapping `"unknown_lineage"`, not `"unknown lineage"` as the claim states. -/
theorem c2_best_match_counterexample :
    classifyBestV1 [("lineage1", 0)] ≠ some "unknown lineage" := by decide

/-- C2 (amended): under the best-match policy, a zero maximum yields
`"unknown lineage"` in V5 but `"unknown_lineage"` in v1; for a nonzero
strictly highest score both classifiers report its lineage. -/
theorem c2_best_match_policy (p0 : String × ℚ) (ps : List (String × ℚ)) :
    (pyMax p0.2 (ps.map Prod.snd) = 0 →
        classifyBestV5 (p0 :: ps) = some "unknown lineage"
        ∧ classifyBestV1 (p0 :: ps) = some "unknown_lineage")
    ∧ (∀ L v, (L, v) ∈ p0 :: ps → v ≠ 0 →
        (∀ q ∈ p0 :: ps, q ≠ (L, v) → q.2 < v) →
        classifyBestV5 (p0 :: ps) = some L ∧ classifyBestV1 (p0 :: ps) = some L) := by
  constructor
  · intro h
    constructor <;> simp [classifyBestV5, classifyBestV1, h]
  · intro L v hmem hv hstrict
    have hvle : v ≤ pyMax p0.2 (ps.map Prod.snd) := by
      rcases List.mem_cons.mp hmem with h1 | h1
      · have hp2 : p0.2 = v := by rw [← h1]
        rw [← hp2]
        exact le_pyMax_init p0.2 (ps.map Prod.snd)
      · exact le_pyMax_mem _ _ v (List.mem_map_of_mem Prod.snd h1)
    have hmax_eq : pyMax p0.2 (ps.map Prod.snd) = v := by
      rcases pyMax_mem p0.2 (ps.map Prod.snd) with h1 | h1
      · by_cases hp : p0 = (L, v)
        · rw [h1, hp]
        · exfalso
          have h3 := hstrict p0 (List.mem_cons_self p0 ps) hp
          rw [h1] at hvle
          linarith
      · obtain ⟨q, hq, hq2⟩ := List.mem_map.mp h1
        by_cases hqv : q = (L, v)
        · rw [← hq2, hqv]
        · exfalso
          have h3 := hstrict q (List.mem_cons_of_mem p0 hq) hqv
          rw [← hq2] at hvle
          linarith
    have hne : ¬ pyMax p0.2 (ps.map Prod.snd) = 0 := by rw [hmax_eq]; exact hv
    have hha : pyArgmax p0 ps ∈ p0 :: ps := by
      rcases pyArgmax_mem p0 ps with h1 | h1
      · rw [h1]; exact List.mem_cons_self p0 ps
      · exact List.mem_cons_of_mem _ h1
    have hvlem : v ≤ (pyArgmax p0 ps).2 := by
      rcases List.mem_cons.mp hmem with h1 | h1
      · have hp2 : p0.2 = v := by rw [← h1]
        rw [← hp2]
        exact le_pyArgmax_init p0 ps
      · exact le_pyArgmax_mem p0 ps (L, v) h1
    have hfin : pyArgmax p0 ps = (L, v) := by
      by_cases hm : pyArgmax p0 ps = (L, v)
      · exact hm
      · exfalso
        have h3 := hstrict _ hha hm
        linarith
    constructor <;> simp [classifyBestV5, classifyBestV1, if_neg hne, hfin]

/-- Witness for C2 at a mapping with a unique nonzero strict maximum. -/
theorem c2_best_match_policy_witness :
    classifyBestV5 [("lineage1", 0), ("lineage3", 100)] = some "lineage3"
    ∧ classifyBestV1 [("lineage1", 0), ("lineage3", 100)] = some "lineage3" :=
  (c2_best_match_policy ("lineage1", 0) [("lineage3", 100)]).2 "lineage3" 100
    (by decide) (by decide) (by decide)

/-- C3 counterexample: the single-sample scorer (v1/V5) fails with a
`ZeroDivisionError` on an empty marker set instead of emitting score 0. -/
theorem c3_empty_marker_counterexample :
    scoreV1 (∅ : Finset ℤ) [("emptyLineage", (∅ : Finset ℤ))] = none := by decide

/-- C3 (amended): the joint scorer (v4) emits score 0 for an empty marker
set without failing, while the single-sample scorer (v1) fails for the
whole catalog whenever it contains an empty marker set. -/
theorem c3_empty_marker_policy (S : Finset ℤ) (C : List (String × Finset ℤ))
    (L : String) (M : Finset ℤ) (hmem : (L, M) ∈ C) (hM : M = ∅) :
    (L, (0 : ℚ)) ∈ scoreV4 S C ∧ scoreV1 S C = none := by
  constructor
  · have h0 : scoreFn S M = 0 := by
      unfold scoreFn
      rw [if_pos (by rw [hM]; exact Finset.card_empty)]
    have h1 := List.mem_map_of_mem (fun p => (p.1, scoreFn S p.2)) hmem
    rw [scoreV4]
    simpa [h0] using h1
  · exact scoreV1_none_of_empty hmem (by rw [hM]; exact Finset.card_empty)

/-- Witness for C3 at a one-entry catalog with an empty marker set. -/
theorem c3_empty_marker_policy_witness :
    (("x", (0 : ℚ)) ∈ scoreV4 ∅ [("x", (∅ : Finset ℤ))])
    ∧ scoreV1 ∅ [("x", ∅)] = none :=
  c3_empty_marker_policy ∅ [("x", ∅)] "x" ∅ (by decide) rfl

/-- C4: in joint-mode extraction the GT sub-field index is located by name
in the colon-split FORMAT field (defaulting to 0 when `"GT"` is absent),
the sample is skipped when the index exceeds the sample field's colon-split
length, and the row's position is gained iff the genotype token is neither
`"0"` nor `"."`; with FORMAT `"GT:DP"`, sample field `"1:30"` adds the
position and `"0:30"` does not. -/
theorem c4_joint_gt_extraction :
    (∀ fmt : String, "GT" ∈ splitColon fmt →
        (splitColon fmt).get? (gtIndex fmt) = some "GT")
    ∧ (∀ fmt : String, "GT" ∉ splitColon fmt → gtIndex fmt = 0)
    ∧ (∀ fmt fld : String,
        (sampleGain fmt fld = none ↔ (splitColon fld).length ≤ gtIndex fmt))
    ∧ (∀ fmt fld g, (splitColon fld).get? (gtIndex fmt) = some g →
        (sampleGain fmt fld = some true ↔ (g ≠ "0" ∧ g ≠ ".")))
    ∧ extractJoint ["S1"] [["chr1", "100", "rid", "A", "T", ".", ".", ".", "GT:DP", "1:30"]]
        = some [("S1", ({100} : Finset ℤ))]
    ∧ extractJoint ["S1"] [["chr1", "100", "rid", "A", "T", ".", ".", ".", "GT:DP", "0:30"]]
        = some [("S1", (∅ : Finset ℤ))] := by
  refine ⟨?_, ?_, ?_, ?_, by decide, by decide⟩
  · intro fmt hmem
    obtain ⟨j, hj1, hj2⟩ := gtIndexAux_mem hmem
    rw [gtIndex, hj1]
    exact hj2
  · intro fmt hmem
    rw [gtIndex, gtIndexAux_not_mem hmem]
    rfl
  · intro fmt fld
    simp only [sampleGain, gainsVariant]
    cases hg : (splitColon fld).get? (gtIndex fmt) with
    | none =>
      simp only [hg]
      exact ⟨fun _ => List.get?_eq_none.mp hg, fun _ => trivial⟩
    | some g =>
      simp only [hg]
      constructor
      · intro h; cases h
      · intro hlen
        rw [List.get?_eq_none.mpr hlen] at hg
        cases hg
  · intro fmt fld g hg
    simp only [sampleGain, gainsVariant, hg, Option.some.injEq]
    rw [Bool.and_eq_true, bne_iff_ne, bne_iff_ne]

/-- Witness for C4: the GT index of FORMAT `"GT:DP"` addresses `"GT"`. -/
theorem c4_joint_gt_extraction_witness :
    (splitColon "GT:DP").get? (gtIndex "GT:DP") = some "GT" :=
  c4_joint_gt_extraction.1 "GT:DP" (by decide)

/-- C5: a data row whose position field fails integer parsing is skipped on
its own in joint mode (extraction of the remaining rows continues), while
in single-sample mode it fails the whole file's extraction; the batch
driver then skips the failed file and continues. -/
theorem c5_malformed_position :
    (∀ (samples : List String) (rows1 rows2 : List (List String)) (row : List String)
        (s : String), row.get? 1 = some s → pyInt? s = none →
        extractJoint samples (rows1 ++ row :: rows2) = extractJoint samples (rows1 ++ rows2))
    ∧ (∀ (rows : List (List String)) (row : List String) (s : String),
        row ∈ rows → row.get? 1 = some s → pyInt? s = none → extractSingle rows = none)
    ∧ (∀ {α : Type} (ys : List (Option α)), collectV1 (none :: ys) = collectV1 ys) := by
  refine ⟨?_, ?_, ?_⟩
  · intro samples rows1 rows2 row s h1 h2
    exact extractJoint_skip samples rows1 rows2 h1 h2
  · intro rows row s hrow h1 h2
    have hpos : s ∈ rows.filterMap (fun r => r.get? 1) :=
      List.mem_filterMap.mpr ⟨row, hrow, h1⟩
    have hne : ¬ rows.filterMap (fun r => r.get? 1) = [] := List.ne_nil_of_mem hpos
    have hconv : pyIntList? (rows.filterMap (fun r => r.get? 1)) = none :=
      pyIntList_none_of_mem hpos h2
    simp only [extractSingle, if_neg hne, hconv]
  · intro α ys
    simp [collectV1]

/-- Witness for C5: a `"abc"` position is skipped as a row in joint mode and
fails the file in single mode. -/
theorem c5_malformed_position_witness :
    extractJoint ["S1"]
        ([] ++ ["chr1", "abc"] :: [["chr1", "7", "i", "A", "T", "q", "f", "o", "GT", "1"]])
      = extractJoint ["S1"] ([] ++ [["chr1", "7", "i", "A", "T", "q", "f", "o", "GT", "1"]])
    ∧ extractSingle [["chr1", "abc"]] = none :=
  ⟨c5_malformed_position.1 ["S1"] [] [["chr1", "7", "i", "A", "T", "q", "f", "o", "GT", "1"]]
      ["chr1", "abc"] "abc" (by decide) (by decide),
    c5_malformed_position.2.1 [["chr1", "abc"]] ["chr1", "abc"] "abc"
      (by decide) (by decide) (by decide)⟩

set_option maxRecDepth 8000 in
/-- C6: the V5 pipeline on a single-sample input whose positions are exactly
the lineage3 marker set: extraction succeeds with that set, lineage3 scores
100 (formatted `"100.00%"`), every other catalog lineage scores 0
(`"0.00%"`), and the predicted label is lineage3. -/
theorem c6_lineage3_end_to_end :
    extractSingle rows6 = some sample6
    ∧ scoreV1 sample6 lineage_references_v5 = some scores6
    ∧ List.lookup "lineage3" scores6 = some 100
    ∧ (∀ p ∈ scores6, p.1 ≠ "lineage3" → p.2 = 0)
    ∧ classifyBestV5 scores6 = some "lineage3"
    ∧ formatPct 100 = "100.00%" ∧ formatPct 0 = "0.00%" := by
  refine ⟨by decide, ?_, by decide, by decide, by decide, by decide, by decide⟩
  simp only [lineage_references_v5, scores6]
  refine scoreV1_cons_zero (by decide) (by decide) ?_
  refine scoreV1_cons_zero (by decide) (by decide) ?_
  refine scoreV1_cons_zero (by decide) (by decide) ?_
  refine scoreV1_cons_zero (by decide) (by decide) ?_
  refine scoreV1_cons_zero (by decide) (by decide) ?_
  refine scoreV1_cons_zero (by decide) (by decide) ?_
  refine scoreV1_cons_zero (by decide) (by decide) ?_
  refine scoreV1_cons_full (by decide) (by decide) ?_
  refine scoreV1_cons_zero (by decide) (by decide) ?_
  refine scoreV1_cons_zero (by decide) (by decide) ?_
  refine scoreV1_cons_zero (by decide) (by decide) ?_
  refine scoreV1_cons_zero (by decide) (by decide) ?_
  refine scoreV1_cons_zero (by decide) (by decide) ?_
  refine scoreV1_cons_zero (by decide) (by decide) ?_
  refine scoreV1_cons_zero (by decide) (by decide) ?_
  refine scoreV1_cons_zero (by decide) (by decide) ?_
  refine scoreV1_cons_zero (by decide) (by decide) ?_
  refine scoreV1_cons_zero (by decide) (by decide) ?_
  refine scoreV1_cons_zero (by decide) (by decide) ?_
  refine scoreV1_cons_zero (by decide) (by decide) ?_
  refine scoreV1_cons_zero (by decide) (by decide) ?_
  refine scoreV1_cons_zero (by decide) (by decide) ?_
  refine scoreV1_cons_zero (by decide) (by decide) ?_
  refine scoreV1_cons_zero (by decide) (by decide) ?_
  refine scoreV1_cons_zero (by decide) (by decide) ?_
  refine scoreV1_cons_zero (by decide) (by decide) ?_
  refine scoreV1_cons_zero (by decide) (by decide) ?_
  refine scoreV1_cons_zero (by decide) (by decide) ?_
  refine scoreV1_cons_zero (by decide) (by decide) ?_
  refine scoreV1_cons_zero (by decide) (by decide) ?_
  refine scoreV1_cons_zero (by decide) (by decide) ?_
  rfl

/-- C7 counterexample: with an empty marker set in the catalog, the
single-sample scorer produces no entry at all for any lineage (it fails),
not an entry for every lineage. -/
theorem c7_score_entries_counterexample :
    scoreV1 (∅ : Finset ℤ) [("a", ({5} : Finset ℤ)), ("b", (∅ : Finset ℤ))] = none := by
  decide

/-- C7 (amended): every computed score lies in [0, 100]; the joint scorer
produces an entry for every catalog lineage for every sample set (all zero
when the sample set is empty), and the single-sample scorer does so
whenever it succeeds (it fails when the catalog has an empty marker set). -/
theorem c7_score_bounds :
    (∀ (S : Finset ℤ) (C : List (String × Finset ℤ)),
        (scoreV4 S C).map Prod.fst = C.map Prod.fst
        ∧ ∀ p ∈ scoreV4 S C, 0 ≤ p.2 ∧ p.2 ≤ 100)
    ∧ (∀ C : List (String × Finset ℤ), ∀ p ∈ scoreV4 (∅ : Finset ℤ) C, p.2 = 0)
    ∧ (∀ (S : Finset ℤ) (C : List (String × Finset ℤ)) (m : List (String × ℚ)),
        scoreV1 S C = some m →
        m.map Prod.fst = C.map Prod.fst ∧ ∀ p ∈ m, 0 ≤ p.2 ∧ p.2 ≤ 100) := by
  refine ⟨?_, ?_, ?_⟩
  · intro S C
    constructor
    · simp [scoreV4, List.map_map, Function.comp]
    · intro p hp
      obtain ⟨q, hq, hq2⟩ := List.mem_map.mp hp
      rw [← hq2]
      exact ⟨scoreFn_nonneg S q.2, scoreFn_le_hundred S q.2⟩
  · intro C p hp
    obtain ⟨q, hq, hq2⟩ := List.mem_map.mp hp
    rw [← hq2]
    exact scoreFn_empty_sample q.2
  · intro S C m h
    exact scoreV1_some_spec h

/-- Witness for C7 at a singleton catalog and empty sample set. -/
theorem c7_score_bounds_witness :
    ([("a", (0 : ℚ))].map Prod.fst = [("a", ({1} : Finset ℤ))].map Prod.fst)
    ∧ (∀ p ∈ [("a", (0 : ℚ))], 0 ≤ p.2 ∧ p.2 ≤ 100) :=
  c7_score_bounds.2.2 ∅ [("a", {1})] [("a", 0)]
    (scoreV1_cons_zero (by decide) (by decide) rfl)

/-- C8 counterexample: a batch that produced no classification records emits
no combined report file at all (v4 only prints a console notice), rather
than emitting a report file containing a no-results notice. -/
theorem c8_no_results_counterexample :
    emitV4 (collectV4 ([some [], none] : List (Option (List String)))) = none := rfl

/-- C8 (amended): files yielding an exception or zero samples are skipped
and the remaining files' records are kept, and when no records at all were
collected neither v1 nor v4 emits a combined report file. -/
theorem c8_aggregator_tolerance :
    (∀ {α : Type} (xs ys : List (Option (List α))),
        collectV4 (xs ++ none :: ys) = collectV4 (xs ++ ys))
    ∧ (∀ {α : Type} (xs ys : List (Option (List α))),
        collectV4 (xs ++ some [] :: ys) = collectV4 (xs ++ ys))
    ∧ (∀ {α : Type}, emitV4 ([] : List α) = none)
    ∧ (∀ {α : Type} (xs ys : List (Option α)),
        collectV1 (xs ++ none :: ys) = collectV1 (xs ++ ys))
    ∧ (∀ {α : Type}, emitV1 ([] : List α) = none) := by
  refine ⟨?_, ?_, ?_, ?_, ?_⟩ <;> intros <;>
    simp [collectV4, collectV1, emitV4, emitV1]

/-- C9: lineage scoring is monotone in the sample variant set, both for the
per-lineage score and entrywise over a whole catalog. -/
theorem c9_score_monotone (S T : Finset ℤ) (h : S ⊆ T) :
    (∀ M : Finset ℤ, scoreFn S M ≤ scoreFn T M)
    ∧ (∀ (C : List (String × Finset ℤ)) (i : ℕ) (p q : String × ℚ),
        (scoreV4 S C).get? i = some p → (scoreV4 T C).get? i = some q → p.2 ≤ q.2) := by
  constructor
  · intro M
    exact scoreFn_mono M h
  · intro C i p q hp hq
    rw [scoreV4, List.get?_map] at hp hq
    cases hc : C.get? i with
    | none => rw [hc] at hp; cases hp
    | some e =>
      rw [hc] at hp hq
      simp only [Option.map_some', Option.some.injEq] at hp hq
      rw [← hp, ← hq]
      exact scoreFn_mono e.2 h

/-- Witness for C9 at a concrete subset pair. -/
theorem c9_score_monotone_witness :
    ({1} : Finset ℤ) ⊆ {1, 2} ∧ scoreFn {1} {2} ≤ scoreFn {1, 2} {2} :=
  ⟨by decide, (c9_score_monotone {1} {1, 2} (by decide)).1 {2}⟩

/-- C10 counterexample: the v1 and v4 hard-coded catalogs are not equal as
mappings: they disagree at `"dassie"` (position 2271988 in v1, 271988 in
v4). -/
theorem c10_catalog_counterexample :
    List.lookup "dassie" lineage_references_v1 ≠ List.lookup "dassie" lineage_references_v4 := by
  decide

/-- C10 (amended): the v1 and v4 catalogs have the same lineages in the same
order and identical marker sets everywhere except at index 11 (`"dassie"`),
so for every sample variant set the two pipelines compute the same score at
every position other than dassie's. -/
theorem c10_catalogs_agree_except_dassie :
    lineage_references_v1.map Prod.fst = lineage_references_v4.map Prod.fst
    ∧ (lineage_references_v1.get? 11).map Prod.fst = some "dassie"
    ∧ (∀ j : ℕ, j ≠ 11 → lineage_references_v1.get? j = lineage_references_v4.get? j)
    ∧ (∀ (S : Finset ℤ) (j : ℕ), j ≠ 11 →
        (scoreV4 S lineage_references_v1).get? j
          = (scoreV4 S lineage_references_v4).get? j) := by
  refine ⟨by decide, by decide, ?_, ?_⟩
  · intro j hj
    exact catalogs_get?_eq hj
  · intro S j hj
    rw [scoreV4, scoreV4, List.get?_map, List.get?_map, catalogs_get?_eq hj]

/-- Witness for C10 at index 0 (lineage1) and a concrete sample set. -/
theorem c10_catalogs_agree_except_dassie_witness :
    (scoreV4 {7} lineage_references_v1).get? 0 = (scoreV4 {7} lineage_references_v4).get? 0 :=
  c10_catalogs_agree_except_dassie.2.2.2 {7} 0 (by decide)
